import Mathlib

/-!
Shallow embedding of `src/icp-backend/src/dark_pool_backend/lib.rs` (a dark-pool
trading canister: commit/reveal order lifecycle and state channels), together
with theorems settling the specification claims about it.

Modelling conventions:
* Rust `HashMap<String, V>` globals become association lists `List (String × V)`
  wrapped in `Option`, mirroring the `Option<HashMap<..>>` statics; key lookup,
  insert-or-replace and remove are given explicitly below.  An association list
  fixes one concrete (insertion-order) iteration order, a legitimate instance of
  the unspecified `HashMap` iteration order; Rust's `sort_by` is a stable sort,
  modelled by the stable insertion sort `sortBy` below (for a comparator that is
  a total preorder, all stable sorts return the same list).
* `Uuid::new_v4()` produces fresh identifiers; freshness is modelled by a
  `next_id` counter carried in the state (ids `"commit-0"`, `"order-1"`, ...).
* `ic_cdk::api::time()` is passed in as an explicit `now : Nat` argument to the
  operations that read the clock.
* Rust `Result<T, String>` becomes `Except String T`; an `#[update]` method is a
  function `DarkPoolState → args → Except String T × DarkPoolState`, a
  `#[query]` method returns no state (it cannot mutate).
* `u64`/`u32` fields become `Nat`; no arithmetic in the source can overflow on
  the inputs considered (nonce/epoch increments only), so wrap-around is not
  modelled.
-/

/-- `Order` struct of the source (lib.rs lines 11-25). -/
structure Order where
  id : String
  trader : String
  token_in : String
  token_out : String
  amount_in : String
  amount_out : String
  is_buy : Bool
  nonce : Nat
  timestamp : Nat
  commitment : String
  is_revealed : Bool
  is_executed : Bool
  is_cancelled : Bool
deriving Repr, DecidableEq

/-- `EncryptedOrder` struct of the source (lib.rs lines 28-33). -/
structure EncryptedOrder where
  encrypted_data : String
  commitment : String
  timestamp : Nat
  nonce : Nat
deriving Repr, DecidableEq

/-- `StateChannel` struct of the source (lib.rs lines 36-44). -/
structure StateChannel where
  id : String
  participants : List String
  balance : String
  nonce : Nat
  last_update : Nat
  is_active : Bool
  emergency_withdraw_time : Option Nat
deriving Repr, DecidableEq

/-- `TradingPair` struct of the source (lib.rs lines 47-54). -/
structure TradingPair where
  token_in : String
  token_out : String
  min_order_size : String
  max_order_size : String
  trading_fee : Nat
  is_active : Bool
deriving Repr, DecidableEq

/-- `Balance` struct of the source (lib.rs lines 57-61). -/
structure Balance where
  token : String
  amount : String
  last_update : Nat
deriving Repr, DecidableEq

/-- `Match` struct of the source (lib.rs lines 64-72). -/
structure MatchRecord where
  id : String
  buy_order : String
  sell_order : String
  price : String
  amount : String
  timestamp : Nat
  executed_at : Nat
deriving Repr, DecidableEq

/-- `OrderBook` struct of the source (lib.rs lines 75-78). -/
structure OrderBook where
  buys : List Order
  sells : List Order
deriving Repr, DecidableEq

/-- Key lookup in an association list, modelling `HashMap::get`. -/
def mapGet {α : Type} (m : List (String × α)) (k : String) : Option α :=
  match m with
  | [] => none
  | (k₀, v₀) :: rest => if k₀ = k then some v₀ else mapGet rest k

/-- Key membership, modelling `HashMap::contains_key`. -/
def mapContains {α : Type} (m : List (String × α)) (k : String) : Bool :=
  (mapGet m k).isSome

/-- Insert-or-replace, modelling `HashMap::insert` (new keys appended, which
fixes insertion order as the iteration order of the model). -/
def mapInsert {α : Type} (m : List (String × α)) (k : String) (v : α) :
    List (String × α) :=
  match m with
  | [] => [(k, v)]
  | (k₀, v₀) :: rest =>
      if k₀ = k then (k₀, v) :: rest else (k₀, v₀) :: mapInsert rest k v

/-- Key removal, modelling `HashMap::remove` (result only; the removed value is
discarded by the source).  Every map reachable through the operations below has
pairwise-distinct keys, on which dropping all bindings of `k` coincides with
`HashMap::remove`. -/
def mapRemove {α : Type} (m : List (String × α)) (k : String) :
    List (String × α) :=
  m.filter (fun kv => kv.1 ≠ k)

/-- The values of an association-list map, modelling `HashMap::values`
iteration. -/
def mapValues {α : Type} (m : List (String × α)) : List α :=
  m.map Prod.snd

/-- The global mutable state of the canister (lib.rs lines 100-108), plus the
`next_id` counter modelling `Uuid::new_v4` freshness. -/
structure DarkPoolState where
  orders : Option (List (String × Order))
  state_channels : Option (List (String × StateChannel))
  commitments : Option (List (String × Nat))
  trading_pairs : Option (List (String × TradingPair))
  user_balances : Option (List (String × List Balance))
  match_records : Option (List (String × MatchRecord))
  current_epoch : Nat
  is_paused : Bool
  engine_public_key : String
  next_id : Nat
deriving Repr, DecidableEq

/-- `init` (lib.rs lines 112-154): empty stores, the two built-in trading
pairs, epoch 0, unpaused, all-zero engine key. -/
def initState : DarkPoolState where
  orders := some []
  state_channels := some []
  commitments := some []
  trading_pairs := some
    [("ETH/USDC",
      { token_in := "0x0000000000000000000000000000000000000000"
        token_out := "0xA0b86a33E6441b8c4C8C8C8C8C8C8C8C8C8C8C8"
        min_order_size := "0.001"
        max_order_size := "100"
        trading_fee := 50
        is_active := true }),
     ("QNT/USDT",
      { token_in := "0x4a220e6096b25eadb88358cb44068a3248254675"
        token_out := "0xdac17f958d2ee523a2206206994597c13d831ec7"
        min_order_size := "0.001"
        max_order_size := "100"
        trading_fee := 50
        is_active := true })]
  user_balances := some []
  match_records := some []
  current_epoch := 0
  is_paused := false
  engine_public_key :=
    "0x0000000000000000000000000000000000000000000000000000000000000000"
  next_id := 0

/-- `commit_order` (lib.rs lines 192-219): rejects while paused, rejects a hash
already present with "Commitment already exists", otherwise stores
`hash ↦ timestamp` and returns a fresh transaction id.  The lazy
re-initialisation of a `None` commitments map is modelled by `Option.getD []`
followed by storing `some` of the resulting map. -/
def commit_order (s : DarkPoolState) (commitment : String) (timestamp : Nat)
    (trader : String) : Except String String × DarkPoolState :=
  if s.is_paused then
    (Except.error "Trading is currently paused", s)
  else
    let m := s.commitments.getD []
    if mapContains m commitment then
      (Except.error "Commitment already exists", { s with commitments := some m })
    else
      (Except.ok ("commit-" ++ toString s.next_id),
       { s with
          commitments := some (mapInsert m commitment timestamp)
          next_id := s.next_id + 1 })

/-- The mock order built by `reveal_order` (lib.rs lines 246-260): every field
is a fixed constant except `nonce`, `timestamp` and `commitment`, which are
copied from the submitted `EncryptedOrder`, and the freshly generated `id`. -/
def mkRevealedOrder (order_id : String) (eo : EncryptedOrder) : Order where
  id := order_id
  trader := "mock-trader"
  token_in := "ETH"
  token_out := "USDC"
  amount_in := "1.0"
  amount_out := "2000"
  is_buy := true
  nonce := eo.nonce
  timestamp := eo.timestamp
  commitment := eo.commitment
  is_revealed := true
  is_executed := false
  is_cancelled := false

/-- `reveal_order` (lib.rs lines 221-272): rejects while paused; when the
commitments map is present and does not contain the declared commitment,
rejects with "Commitment not found"; otherwise inserts the mock order under a
fresh id and removes the commitment from the map (when the map is present). -/
def reveal_order (s : DarkPoolState) (eo : EncryptedOrder) :
    Except String Bool × DarkPoolState :=
  if s.is_paused then
    (Except.error "Trading is currently paused", s)
  else if (match s.commitments with
           | some m => !(mapContains m eo.commitment)
           | none => false) then
    (Except.error "Commitment not found", s)
  else
    let order_id := "order-" ++ toString s.next_id
    let order := mkRevealedOrder order_id eo
    (Except.ok true,
     { s with
        orders := some (mapInsert (s.orders.getD []) order_id order)
        commitments := s.commitments.map (fun m => mapRemove m eo.commitment)
        next_id := s.next_id + 1 })

/-- Price of an order as read by `get_order_book`:
`amount_out.parse::<f64>().unwrap_or(0.0)` is modelled as an exact parse of a
plain decimal string (digits, optionally one dot) into `ℚ`, with `0` on any
failure.  This is exact for the decimal strings the canister stores; binary
floating-point rounding of long decimals is not modelled. -/
def digitsToNat (cs : List Char) : Option Nat :=
  cs.foldl
    (fun acc c =>
      match acc with
      | none => none
      | some n => if c.isDigit then some (n * 10 + (c.toNat - 48)) else none)
    (some 0)

/-- Split a character list at the first dot: integer part, and the fractional
part when a dot is present. -/
def splitDot : List Char → List Char × Option (List Char)
  | [] => ([], none)
  | c :: cs =>
      if c = '.' then ([], some cs)
      else
        let r := splitDot cs
        (c :: r.1, r.2)

/-- Parse a plain decimal string into `ℚ`, `0` on failure (see `digitsToNat`
doc above for the modelling scope). -/
def parseDecimal (str : String) : ℚ :=
  let parts := splitDot str.toList
  match digitsToNat parts.1, parts.2 with
  | some n, none => (n : ℚ)
  | some n, some f =>
      match digitsToNat f with
      | some m => (n : ℚ) + (m : ℚ) / ((10 : ℚ) ^ f.length)
      | none => 0
  | none, _ => 0

/-- Stable insertion step: `x` is placed after every already-present `y` with
`le y x`, so elements comparing equal keep their relative order. -/
def insertOrd {α : Type} (le : α → α → Bool) (x : α) : List α → List α
  | [] => [x]
  | y :: ys => if le y x then y :: insertOrd le x ys else x :: y :: ys

/-- Stable insertion sort, modelling Rust's stable `Vec::sort_by`: for a
comparator that is a total preorder, sortedness plus stability determine the
output uniquely, so this agrees with whatever stable sort Rust uses. -/
def sortBy {α : Type} (le : α → α → Bool) (l : List α) : List α :=
  l.foldl (fun acc x => insertOrd le x acc) []

/-- The buy-side comparator of `get_order_book` (lib.rs lines 296-300):
descending by parsed `amount_out`; equal prices compare equal, so the stable
sort keeps their relative order. -/
def buyLE (a b : Order) : Bool :=
  decide (parseDecimal b.amount_out ≤ parseDecimal a.amount_out)

/-- The sell-side comparator of `get_order_book` (lib.rs lines 302-306):
ascending by parsed `amount_out`. -/
def sellLE (a b : Order) : Bool :=
  decide (parseDecimal a.amount_out ≤ parseDecimal b.amount_out)

/-- `get_order_book` (lib.rs lines 274-310): a `#[query]`, so it returns no
state.  It ignores its `trading_pair` argument, keeps every order that is
neither cancelled nor executed, splits by `is_buy`, and stably sorts buys
descending / sells ascending by parsed `amount_out`. -/
def get_order_book (s : DarkPoolState) (trading_pair : String) :
    Except String OrderBook :=
  match s.orders with
  | none => Except.ok { buys := [], sells := [] }
  | some orders =>
      let live := (mapValues orders).filter
        (fun o => !o.is_cancelled && !o.is_executed)
      let buys := live.filter (fun o => o.is_buy)
      let sells := live.filter (fun o => !o.is_buy)
      Except.ok { buys := sortBy buyLE buys, sells := sortBy sellLE sells }

/-- `cancel_order` (lib.rs lines 323-337): succeeds, setting
`is_cancelled := true`, exactly when the order exists, `trader` equals the
order's trader and the order is not executed; every other case returns the one
combined error string with no mutation. -/
def cancel_order (s : DarkPoolState) (order_id : String) (trader : String) :
    Except String Bool × DarkPoolState :=
  match s.orders with
  | some orders =>
      match mapGet orders order_id with
      | some o =>
          if o.trader = trader ∧ o.is_executed = false then
            let orders2 := mapInsert orders order_id { o with is_cancelled := true }
            (Except.ok true, { s with orders := some orders2 })
          else (Except.error "Order not found or cannot be cancelled", s)
      | none => (Except.error "Order not found or cannot be cancelled", s)
  | none => (Except.error "Order not found or cannot be cancelled", s)

/-- `open_state_channel` (lib.rs lines 341-366): unconditionally creates a
channel with the single given participant, the given initial balance, nonce 0,
`last_update = now`, active, and no emergency-withdraw time; the `collateral`
argument is never read.  Returns the created channel. -/
def open_state_channel (s : DarkPoolState) (participant : String)
    (initial_balance : String) (collateral : String) (now : Nat) :
    Except String StateChannel × DarkPoolState :=
  let channels := s.state_channels.getD []
  let channel_id := "channel-" ++ toString s.next_id
  let channel : StateChannel :=
    { id := channel_id
      participants := [participant]
      balance := initial_balance
      nonce := 0
      last_update := now
      is_active := true
      emergency_withdraw_time := none }
  (Except.ok channel,
   { s with
      state_channels := some (mapInsert channels channel_id channel)
      next_id := s.next_id + 1 })

/-- `update_state_channel` (lib.rs lines 368-384): on any existing channel —
no activity, nonce or signature check is performed — sets the balance,
increments the nonce by 1 and refreshes `last_update`; an unknown channel id
fails with "State channel not found". -/
def update_state_channel (s : DarkPoolState) (channel_id : String)
    (new_balance : String) (signature : String) (now : Nat) :
    Except String Bool × DarkPoolState :=
  match s.state_channels with
  | some channels =>
      match mapGet channels channel_id with
      | some ch =>
          let channels2 := mapInsert channels channel_id
            { ch with balance := new_balance, nonce := ch.nonce + 1,
                      last_update := now }
          (Except.ok true, { s with state_channels := some channels2 })
      | none => (Except.error "State channel not found", s)
  | none => (Except.error "State channel not found", s)

/-- `emergency_withdrawal` (lib.rs lines 413-429): on an existing active
channel, sets `emergency_withdraw_time := now + 86400` (24 hours) and
deactivates it; otherwise fails with the combined error string with no
mutation.  The method reads no caller identity. -/
def emergency_withdrawal (s : DarkPoolState) (channel_id : String) (now : Nat) :
    Except String Bool × DarkPoolState :=
  match s.state_channels with
  | some channels =>
      match mapGet channels channel_id with
      | some ch =>
          if ch.is_active then
            let channels2 := mapInsert channels channel_id
              { ch with emergency_withdraw_time := some (now + 86400),
                        is_active := false }
            (Except.ok true, { s with state_channels := some channels2 })
          else (Except.error "State channel not found or not active", s)
      | none => (Except.error "State channel not found or not active", s)
  | none => (Except.error "State channel not found or not active", s)

/-- The canister method `emergency_withdrawal` with the transport-level caller
made explicit: the source function reads no caller identity (it never calls
`ic_cdk::api::caller()`), so the caller argument is discarded exactly as the
source discards it.  This wrapper lets claims that quantify over the caller be
stated. -/
def emergency_withdrawal_by (caller : String) (s : DarkPoolState)
    (channel_id : String) (now : Nat) : Except String Bool × DarkPoolState :=
  emergency_withdrawal s channel_id now

/-! ### Concrete scenario states

Concrete states reached from `initState` by runs of the operations above; they
instantiate the theorems below and exhibit the counterexamples. -/

/-- A fixed encrypted order revealing commitment `"h"`. -/
def eoH : EncryptedOrder :=
  { encrypted_data := "e", commitment := "h", timestamp := 7, nonce := 5 }

/-- State after `open_state_channel initState "A" "100" "0"` at time 50: one
channel `"channel-0"` with participant list `["A"]`, balance `"100"`, nonce 0,
active. -/
def chanState : DarkPoolState :=
  (open_state_channel initState "A" "100" "0" 50).2

/-- `chanState` after one cooperative update to balance `"80"` (nonce 1). -/
def chanUpd : DarkPoolState :=
  (update_state_channel chanState "channel-0" "80" "sig" 60).2

/-- `chanState` after `emergency_withdrawal` at time 50: the channel is
inactive with `emergency_withdraw_time = some 86450`. -/
def chanClosing : DarkPoolState :=
  (emergency_withdrawal chanState "channel-0" 50).2

/-- State after committing hash `"h"` at time 1 from the fresh state. -/
def sCommitH : DarkPoolState := (commit_order initState "h" 1 "A").2

/-- `sCommitH` after a successful reveal of `"h"`: the order `"order-1"` exists
and the commitment has been consumed. -/
def sRevealH : DarkPoolState := (reveal_order sCommitH eoH).2

/-- `sRevealH` after re-committing the already-consumed hash `"h"` at time 2 —
the recommit succeeds because the registry no longer contains `"h"`. -/
def sRecommitH : DarkPoolState := (commit_order sRevealH "h" 2 "A").2

/-- `sRevealH` after the mock trader cancels the revealed order `"order-1"`. -/
def sCancelH : DarkPoolState := (cancel_order sRevealH "order-1" "mock-trader").2

/-- An encrypted order for commitment `"h1"` with timestamp 10. -/
def eoT10 : EncryptedOrder :=
  { encrypted_data := "e1", commitment := "h1", timestamp := 10, nonce := 0 }

/-- An encrypted order for commitment `"h2"` with timestamp 5. -/
def eoT5 : EncryptedOrder :=
  { encrypted_data := "e2", commitment := "h2", timestamp := 5, nonce := 0 }

/-- State holding two revealed buy orders with equal price `"2000"`: the one
with timestamp 10 (`"order-2"`) was revealed before the one with timestamp 5
(`"order-3"`). -/
def sBook : DarkPoolState :=
  (reveal_order
    (reveal_order
      ((commit_order ((commit_order initState "h1" 1 "A").2) "h2" 2 "A").2)
      eoT10).2
    eoT5).2

/-! ### Map lemmas -/

/-- Looking up the key just inserted returns the inserted value. -/
theorem mapGet_insert_self {α : Type} (m : List (String × α)) (k : String)
    (v : α) : mapGet (mapInsert m k v) k = some v := by
  induction m with
  | nil => simp [mapInsert, mapGet]
  | cons kv rest ih =>
      by_cases h : kv.1 = k <;> simp [mapInsert, mapGet, h, ih]

/-- Looking up a key just removed returns nothing. -/
theorem mapGet_remove_self {α : Type} (m : List (String × α)) (k : String) :
    mapGet (mapRemove m k) k = none := by
  induction m with
  | nil => rfl
  | cons kv rest ih =>
      by_cases h : kv.1 = k <;>
        simp_all [mapRemove, mapGet, List.filter]

/-! ### Sorting lemmas -/

/-- Membership through a stable insertion step. -/
theorem mem_insertOrd {α : Type} (le : α → α → Bool) (x a : α) (l : List α) :
    a ∈ insertOrd le x l ↔ a = x ∨ a ∈ l := by
  induction l with
  | nil => simp [insertOrd]
  | cons y ys ih =>
      by_cases h : le y x = true <;> (simp [insertOrd, h, ih]; try tauto)

/-- Inserting into a list sorted by a transitive total comparator keeps it
sorted. -/
theorem pairwise_insertOrd {α : Type} (le : α → α → Bool)
    (htrans : ∀ a b c, le a b = true → le b c = true → le a c = true)
    (htot : ∀ a b, (le a b || le b a) = true) (x : α) (l : List α)
    (hl : List.Pairwise (fun a b => le a b = true) l) :
    List.Pairwise (fun a b => le a b = true) (insertOrd le x l) := by
  induction l with
  | nil => simp [insertOrd]
  | cons y ys ih =>
      rcases List.pairwise_cons.mp hl with ⟨hy, hys⟩
      by_cases h : le y x = true
      · rw [insertOrd, if_pos h]
        refine List.pairwise_cons.mpr ⟨fun z hz => ?_, ih hys⟩
        rcases (mem_insertOrd le x z ys).mp hz with rfl | hzys
        · exact h
        · exact hy z hzys
      · have hxy : le x y = true := by
          have h2 := htot y x
          cases hyx : le y x with
          | true => exact absurd hyx h
          | false => rw [hyx] at h2; simpa using h2
        rw [insertOrd, if_neg h]
        refine List.pairwise_cons.mpr ⟨fun z hz => ?_, hl⟩
        rcases List.mem_cons.mp hz with rfl | hzys
        · exact hxy
        · exact htrans x y z hxy (hy z hzys)

/-- Membership through the fold underlying `sortBy`. -/
theorem mem_foldl_insertOrd {α : Type} (le : α → α → Bool) (l : List α)
    (acc : List α) (a : α) :
    a ∈ l.foldl (fun acc x => insertOrd le x acc) acc ↔ a ∈ acc ∨ a ∈ l := by
  induction l generalizing acc with
  | nil => simp
  | cons x xs ih => simp [ih, mem_insertOrd]; tauto

/-- Sortedness through the fold underlying `sortBy`. -/
theorem pairwise_foldl_insertOrd {α : Type} (le : α → α → Bool)
    (htrans : ∀ a b c, le a b = true → le b c = true → le a c = true)
    (htot : ∀ a b, (le a b || le b a) = true) (l : List α) (acc : List α)
    (hacc : List.Pairwise (fun a b => le a b = true) acc) :
    List.Pairwise (fun a b => le a b = true)
      (l.foldl (fun acc x => insertOrd le x acc) acc) := by
  induction l generalizing acc with
  | nil => exact hacc
  | cons x xs ih => exact ih _ (pairwise_insertOrd le htrans htot x acc hacc)

/-- `sortBy` is a permutation-preserving map on membership. -/
theorem mem_sortBy {α : Type} (le : α → α → Bool) (l : List α) (a : α) :
    a ∈ sortBy le l ↔ a ∈ l := by
  simpa [sortBy] using mem_foldl_insertOrd le l [] a

/-- `sortBy` with a transitive total comparator sorts. -/
theorem pairwise_sortBy {α : Type} (le : α → α → Bool)
    (htrans : ∀ a b c, le a b = true → le b c = true → le a c = true)
    (htot : ∀ a b, (le a b || le b a) = true) (l : List α) :
    List.Pairwise (fun a b => le a b = true) (sortBy le l) :=
  pairwise_foldl_insertOrd le htrans htot l [] (by simp)

/-! ### Claim C5 -/

/-- Claim C5: for every hash not present in the commitments map (unknown or
previously consumed), `reveal_order` with that declared commitment fails with
the unknown-commitment error ("Commitment not found") and returns the state
completely unchanged — in particular the registry and the order table. -/
theorem c5_reveal_unknown_commitment_rejected (s : DarkPoolState)
    (eo : EncryptedOrder) (m : List (String × Nat))
    (hp : s.is_paused = false) (hm : s.commitments = some m)
    (hc : mapContains m eo.commitment = false) :
    reveal_order s eo = (Except.error "Commitment not found", s) := by
  simp [reveal_order, hp, hm, hc]

/-- Instantiation of `c5_reveal_unknown_commitment_rejected` at the freshly
initialised state and commitment `"h"`. -/
theorem c5_witness :
    reveal_order initState eoH = (Except.error "Commitment not found", initState) :=
  c5_reveal_unknown_commitment_rejected initState eoH [] rfl rfl rfl

/-! ### Claim C8 -/

/-- Claim C8: committing a fresh hash succeeds and stores its timestamp;
immediately committing the same hash again (first commitment not yet consumed)
fails with "Commitment already exists" and leaves the state of the first
commit untouched, so the registry keeps the original timestamp. -/
theorem c8_duplicate_commit_rejected (s : DarkPoolState) (h tr1 tr2 : String)
    (t1 t2 : Nat) (m : List (String × Nat)) (hp : s.is_paused = false)
    (hm : s.commitments = some m) (hc : mapContains m h = false) :
    commit_order s h t1 tr1 =
      (Except.ok ("commit-" ++ toString s.next_id),
       { s with commitments := some (mapInsert m h t1), next_id := s.next_id + 1 })
    ∧ mapGet (mapInsert m h t1) h = some t1
    ∧ commit_order
        { s with commitments := some (mapInsert m h t1), next_id := s.next_id + 1 }
        h t2 tr2 =
      (Except.error "Commitment already exists",
       { s with commitments := some (mapInsert m h t1), next_id := s.next_id + 1 }) := by
  refine ⟨by simp [commit_order, hp, hm, hc], mapGet_insert_self m h t1, ?_⟩
  simp [commit_order, hp, mapContains, mapGet_insert_self m h t1]

/-- Instantiation of `c8_duplicate_commit_rejected` at the freshly initialised
state: commit `"h"` at time 1, recommit at time 2. -/
theorem c8_witness :
    commit_order initState "h" 1 "A" =
      (Except.ok "commit-0",
       { initState with commitments := some [("h", 1)], next_id := 1 })
    ∧ mapGet [("h", 1)] "h" = some 1
    ∧ commit_order { initState with commitments := some [("h", 1)], next_id := 1 }
        "h" 2 "B" =
      (Except.error "Commitment already exists",
       { initState with commitments := some [("h", 1)], next_id := 1 }) :=
  c8_duplicate_commit_rejected initState "h" "A" "B" 1 2 [] rfl rfl rfl

/-! ### Claim C10 -/

/-- Claim C10: `open_state_channel` always creates (and returns) a channel with
exactly the one given participant, the given initial balance, nonce 0, active,
and no emergency-withdraw time; the new state differs from the old only by the
insertion of that channel (and the fresh-id counter), so orders, commitments,
balances, pairs, matches and the pause flag are untouched; and the collateral
argument has no effect at all: any two collateral values give identical
results. -/
theorem c10_open_state_channel_characterised (s : DarkPoolState)
    (participant initial_balance collateral collateral2 : String) (now : Nat) :
    open_state_channel s participant initial_balance collateral now =
      (Except.ok
        { id := "channel-" ++ toString s.next_id
          participants := [participant]
          balance := initial_balance
          nonce := 0
          last_update := now
          is_active := true
          emergency_withdraw_time := none },
       { s with
          state_channels := some (mapInsert (s.state_channels.getD [])
            ("channel-" ++ toString s.next_id)
            { id := "channel-" ++ toString s.next_id
              participants := [participant]
              balance := initial_balance
              nonce := 0
              last_update := now
              is_active := true
              emergency_withdraw_time := none })
          next_id := s.next_id + 1 })
    ∧ open_state_channel s participant initial_balance collateral now =
        open_state_channel s participant initial_balance collateral2 now :=
  ⟨rfl, rfl⟩

/-! ### Claim C1 -/

/-- Claim C1 (amended): `update_state_channel` carries no client nonce and
performs no staleness, activity or signature check.  On any existing channel it
succeeds, sets the balance, increments the channel nonce by exactly 1 and
refreshes `last_update`; the only failure is an unknown channel id (or an
uninitialised channel map), which returns "State channel not found" with the
state unchanged — no update is ever rejected with a stale-nonce error. -/
theorem c1_update_channel_characterised (s : DarkPoolState)
    (cid bal sig : String) (now : Nat) :
    (∀ channels ch, s.state_channels = some channels →
      mapGet channels cid = some ch →
      update_state_channel s cid bal sig now =
        (Except.ok true,
         { s with state_channels := some (mapInsert channels cid
            { ch with balance := bal, nonce := ch.nonce + 1,
                      last_update := now }) }))
    ∧ (∀ channels, s.state_channels = some channels →
      mapGet channels cid = none →
      update_state_channel s cid bal sig now =
        (Except.error "State channel not found", s))
    ∧ (s.state_channels = none →
      update_state_channel s cid bal sig now =
        (Except.error "State channel not found", s)) := by
  refine ⟨fun channels ch hm hc => ?_, fun channels hm hc => ?_, fun hm => ?_⟩
  · simp [update_state_channel, hm, hc]
  · simp [update_state_channel, hm, hc]
  · simp [update_state_channel, hm]

/-- Instantiation of `c1_update_channel_characterised` at the one-channel state
`chanState`: the update to balance `"80"` succeeds and moves the nonce from 0
to 1. -/
theorem c1_witness :
    update_state_channel chanState "channel-0" "80" "sig" 60 =
      (Except.ok true,
       { chanState with state_channels := some (mapInsert
          (chanState.state_channels.getD []) "channel-0"
          { id := "channel-0", participants := ["A"], balance := "80",
            nonce := 1, last_update := 60, is_active := true,
            emergency_withdraw_time := none }) }) := by
  have h := (c1_update_channel_characterised chanState "channel-0" "80" "sig"
    60).1 (chanState.state_channels.getD [])
    { id := "channel-0", participants := ["A"], balance := "100",
      nonce := 0, last_update := 50, is_active := true,
      emergency_withdraw_time := none } rfl rfl
  simpa using h

/-- Claim C1 counterexample: after one accepted update (channel nonce 1), the
very same update message — a replay of an already-applied state, whose nonce is
therefore not `current + 1` — is accepted again instead of being rejected with
a stale-nonce error, and the channel nonce moves to 2. -/
theorem c1_counterexample :
    (mapGet (chanUpd.state_channels.getD []) "channel-0").map
        StateChannel.nonce = some 1
    ∧ (update_state_channel chanUpd "channel-0" "80" "sig" 70).1 = Except.ok true
    ∧ (mapGet ((update_state_channel chanUpd "channel-0" "80" "sig"
        70).2.state_channels.getD []) "channel-0").map StateChannel.nonce
      = some 2 := by
  refine ⟨rfl, rfl, rfl⟩

/-! ### Claim C3 -/

/-- Claim C3 (amended): while a channel is in the closing configuration
(`is_active = false` after an emergency withdrawal), its
`emergency_withdraw_time` stays fixed — a repeated `emergency_withdrawal` fails
with the combined error and changes nothing, and a cooperative
`update_state_channel` never touches that field — but, contrary to the original
claim, cooperative updates are still accepted on such a channel: they succeed
and change its balance and nonce. -/
theorem c3_closing_channel_still_updatable (s : DarkPoolState)
    (cid bal sig : String) (now : Nat)
    (channels : List (String × StateChannel)) (ch : StateChannel)
    (hm : s.state_channels = some channels) (hc : mapGet channels cid = some ch)
    (hact : ch.is_active = false) :
    update_state_channel s cid bal sig now =
      (Except.ok true,
       { s with state_channels := some (mapInsert channels cid
          { ch with balance := bal, nonce := ch.nonce + 1,
                    last_update := now }) })
    ∧ ({ ch with balance := bal, nonce := ch.nonce + 1, last_update := now
         : StateChannel }).emergency_withdraw_time = ch.emergency_withdraw_time
    ∧ emergency_withdrawal s cid now =
        (Except.error "State channel not found or not active", s) := by
  refine ⟨by simp [update_state_channel, hm, hc], rfl, ?_⟩
  simp [emergency_withdrawal, hm, hc, hact]

/-- Instantiation of `c3_closing_channel_still_updatable` at `chanClosing`
(the channel closed at time 50, deadline 86450). -/
theorem c3_witness :
    update_state_channel chanClosing "channel-0" "999" "sig" 60 =
      (Except.ok true,
       { chanClosing with state_channels := some (mapInsert
          (chanClosing.state_channels.getD []) "channel-0"
          { id := "channel-0", participants := ["A"], balance := "999",
            nonce := 1, last_update := 60, is_active := false,
            emergency_withdraw_time := some 86450 }) })
    ∧ emergency_withdrawal chanClosing "channel-0" 99 =
        (Except.error "State channel not found or not active", chanClosing) := by
  have h := c3_closing_channel_still_updatable chanClosing "channel-0" "999"
    "sig" 60 (chanClosing.state_channels.getD [])
    { id := "channel-0", participants := ["A"], balance := "100",
      nonce := 0, last_update := 50, is_active := false,
      emergency_withdraw_time := some 86450 } rfl rfl rfl
  have h2 := c3_closing_channel_still_updatable chanClosing "channel-0" "999"
    "sig" 99 (chanClosing.state_channels.getD [])
    { id := "channel-0", participants := ["A"], balance := "100",
      nonce := 0, last_update := 50, is_active := false,
      emergency_withdraw_time := some 86450 } rfl rfl rfl
  exact ⟨by simpa using h.1, h2.2.2⟩

/-- Claim C3 counterexample: `chanClosing` is a Closing channel (inactive,
deadline set), yet the cooperative update to balance `"999"` is accepted — it
returns ok and the recorded balance changes — contradicting that no cooperative
balance update is accepted while Closing. -/
theorem c3_counterexample :
    (mapGet (chanClosing.state_channels.getD []) "channel-0").map
        (fun ch => (ch.is_active, ch.emergency_withdraw_time))
      = some (false, some 86450)
    ∧ (update_state_channel chanClosing "channel-0" "999" "sig" 60).1
      = Except.ok true
    ∧ (mapGet ((update_state_channel chanClosing "channel-0" "999" "sig"
        60).2.state_channels.getD []) "channel-0").map StateChannel.balance
      = some "999" := by
  refine ⟨rfl, rfl, rfl⟩

/-! ### Claim C4 -/

/-- Claim C4 (amended): the canister's `emergency_withdrawal` reads no caller
identity and performs no participant check, so any caller — participant or not
— on an Active channel moves it out of the active state and sets
`emergency_withdraw_time = now + 86400` (24 hours); called on a channel that is
not active, or on an unknown channel id, it fails with the combined error
"State channel not found or not active" leaving the state unchanged; there is
no not-participant failure. -/
theorem c4_emergency_withdrawal_characterised (caller : String)
    (s : DarkPoolState) (cid : String) (now : Nat) :
    (∀ channels ch, s.state_channels = some channels →
      mapGet channels cid = some ch → ch.is_active = true →
      emergency_withdrawal_by caller s cid now =
        (Except.ok true,
         { s with state_channels := some (mapInsert channels cid
            { ch with emergency_withdraw_time := some (now + 86400),
                      is_active := false }) }))
    ∧ (∀ channels ch, s.state_channels = some channels →
      mapGet channels cid = some ch → ch.is_active = false →
      emergency_withdrawal_by caller s cid now =
        (Except.error "State channel not found or not active", s))
    ∧ (∀ channels, s.state_channels = some channels →
      mapGet channels cid = none →
      emergency_withdrawal_by caller s cid now =
        (Except.error "State channel not found or not active", s))
    ∧ (s.state_channels = none →
      emergency_withdrawal_by caller s cid now =
        (Except.error "State channel not found or not active", s)) := by
  refine ⟨fun channels ch hm hc hact => ?_, fun channels ch hm hc hact => ?_,
    fun channels hm hc => ?_, fun hm => ?_⟩
  · simp [emergency_withdrawal_by, emergency_withdrawal, hm, hc, hact]
  · simp [emergency_withdrawal_by, emergency_withdrawal, hm, hc, hact]
  · simp [emergency_withdrawal_by, emergency_withdrawal, hm, hc]
  · simp [emergency_withdrawal_by, emergency_withdrawal, hm]

/-- Instantiation of `c4_emergency_withdrawal_characterised`: caller `"B"` on
the active channel of `chanState` succeeds, and a repeat on the resulting
inactive channel fails with the combined error. -/
theorem c4_witness :
    emergency_withdrawal_by "B" chanState "channel-0" 50 =
      (Except.ok true,
       { chanState with state_channels := some (mapInsert
          (chanState.state_channels.getD []) "channel-0"
          { id := "channel-0", participants := ["A"], balance := "100",
            nonce := 0, last_update := 50, is_active := false,
            emergency_withdraw_time := some 86450 }) }) := by
  have h := (c4_emergency_withdrawal_characterised "B" chanState "channel-0"
    50).1 (chanState.state_channels.getD [])
    { id := "channel-0", participants := ["A"], balance := "100",
      nonce := 0, last_update := 50, is_active := true,
      emergency_withdraw_time := none } rfl rfl rfl
  simpa using h

/-- Claim C4 counterexample: the only channel of `chanState` has participant
list `["A"]`, yet the call made by the non-participant `"B"` does not fail with
a not-participant error — it succeeds and deactivates the channel. -/
theorem c4_counterexample :
    (mapGet (chanState.state_channels.getD []) "channel-0").map
        StateChannel.participants = some ["A"]
    ∧ (emergency_withdrawal_by "B" chanState "channel-0" 50).1 = Except.ok true
    ∧ (mapGet ((emergency_withdrawal_by "B" chanState "channel-0"
        50).2.state_channels.getD []) "channel-0").map
        (fun ch => (ch.is_active, ch.emergency_withdraw_time))
      = some (false, some 86450) := by
  refine ⟨rfl, rfl, rfl⟩

/-! ### Claim C2 -/

/-- Claim C2 (amended): a successful reveal removes the hash from the
commitments map, so a second reveal of the same hash without an intervening
commit fails with "Commitment not found"; but the removal is not permanent —
a later `commit_order` with the same hash succeeds again and reinserts it into
the registry (from where a further reveal can mint another order), so a
consumed hash can be reused via recommitment. -/
theorem c2_consumed_hash_reusable (s : DarkPoolState) (eo : EncryptedOrder)
    (t2 : Nat) (tr : String) (m : List (String × Nat))
    (hp : s.is_paused = false) (hm : s.commitments = some m)
    (hc : mapContains m eo.commitment = true) :
    (reveal_order s eo).1 = Except.ok true
    ∧ ((reveal_order s eo).2).commitments = some (mapRemove m eo.commitment)
    ∧ mapContains (mapRemove m eo.commitment) eo.commitment = false
    ∧ (reveal_order ((reveal_order s eo).2) eo).1
        = Except.error "Commitment not found"
    ∧ (commit_order ((reveal_order s eo).2) eo.commitment t2 tr).1
        = Except.ok ("commit-" ++ toString ((reveal_order s eo).2).next_id)
    ∧ mapGet (((commit_order ((reveal_order s eo).2) eo.commitment t2
        tr).2).commitments.getD []) eo.commitment = some t2 := by
  have hrem : mapContains (mapRemove m eo.commitment) eo.commitment = false := by
    simp [mapContains, mapGet_remove_self]
  have hs1 : (reveal_order s eo).2 =
      { s with
         orders := some (mapInsert (s.orders.getD [])
           ("order-" ++ toString s.next_id)
           (mkRevealedOrder ("order-" ++ toString s.next_id) eo))
         commitments := some (mapRemove m eo.commitment)
         next_id := s.next_id + 1 } := by
    simp [reveal_order, hp, hm, hc]
  refine ⟨by simp [reveal_order, hp, hm, hc], by rw [hs1], hrem, ?_, ?_, ?_⟩
  · rw [hs1]; simp [reveal_order, hp, hrem]
  · rw [hs1]; simp [commit_order, hp, hrem]
  · rw [hs1]; simp [commit_order, hp, hrem, mapGet_insert_self]

/-- Instantiation of `c2_consumed_hash_reusable` on the concrete run: reveal of
the committed `"h"` succeeds, an immediate second reveal fails, a recommit at
time 9 succeeds. -/
theorem c2_witness :
    (reveal_order sCommitH eoH).1 = Except.ok true
    ∧ (reveal_order ((reveal_order sCommitH eoH).2) eoH).1
        = Except.error "Commitment not found"
    ∧ (commit_order ((reveal_order sCommitH eoH).2) "h" 9 "A").1
        = Except.ok ("commit-" ++ toString ((reveal_order sCommitH eoH).2).next_id) :=
  ⟨(c2_consumed_hash_reusable sCommitH eoH 9 "A" [("h", 1)] rfl rfl rfl).1,
   (c2_consumed_hash_reusable sCommitH eoH 9 "A" [("h", 1)] rfl rfl rfl).2.2.2.1,
   (c2_consumed_hash_reusable sCommitH eoH 9 "A" [("h", 1)] rfl rfl rfl).2.2.2.2.1⟩

/-- Claim C2 counterexample: hash `"h"` is consumed by a successful reveal
(registry no longer contains it), yet the later `commit_order` with the same
`"h"` succeeds and reintroduces `"h"` into the registry, and a further reveal
of `"h"` succeeds and produces another order (`"order-3"`) from it. -/
theorem c2_counterexample :
    (reveal_order sCommitH eoH).1 = Except.ok true
    ∧ mapContains (sRevealH.commitments.getD []) "h" = false
    ∧ (commit_order sRevealH "h" 2 "A").1 = Except.ok "commit-2"
    ∧ mapGet (sRecommitH.commitments.getD []) "h" = some 2
    ∧ (reveal_order sRecommitH eoH).1 = Except.ok true
    ∧ (mapGet (((reveal_order sRecommitH eoH).2).orders.getD [])
        "order-3").map Order.commitment = some "h" := by
  refine ⟨rfl, rfl, rfl, rfl, rfl, rfl⟩

/-! ### Claim C6 -/

/-- Claim C6 (amended): `cancel_order` succeeds — setting `is_cancelled` —
exactly when the order exists, the caller equals the order's trader and the
order is not executed; since the revealed flag and an existing cancellation are
not consulted, an already-cancelled order can be cancelled again.  Every
failure — unknown id, wrong caller, or executed order — returns the one
combined error "Order not found or cannot be cancelled" and leaves the state
unchanged. -/
theorem c6_cancel_characterised (s : DarkPoolState) (oid tr : String) :
    (∀ orders o, s.orders = some orders → mapGet orders oid = some o →
      o.trader = tr → o.is_executed = false →
      cancel_order s oid tr =
        (Except.ok true,
         { s with orders := some (mapInsert orders oid
            { o with is_cancelled := true }) }))
    ∧ (∀ orders o, s.orders = some orders → mapGet orders oid = some o →
      ¬(o.trader = tr ∧ o.is_executed = false) →
      cancel_order s oid tr =
        (Except.error "Order not found or cannot be cancelled", s))
    ∧ (∀ orders, s.orders = some orders → mapGet orders oid = none →
      cancel_order s oid tr =
        (Except.error "Order not found or cannot be cancelled", s))
    ∧ (s.orders = none →
      cancel_order s oid tr =
        (Except.error "Order not found or cannot be cancelled", s)) := by
  refine ⟨fun orders o hm hc ho he => ?_, fun orders o hm hc hno => ?_,
    fun orders hm hc => ?_, fun hm => ?_⟩
  · simp only [cancel_order, hm, hc]
    rw [if_pos ⟨ho, he⟩]
  · simp only [cancel_order, hm, hc]
    rw [if_neg hno]
  · simp [cancel_order, hm, hc]
  · simp [cancel_order, hm]

/-- Instantiation of `c6_cancel_characterised`: the owner's cancel of the
revealed order `"order-1"` succeeds, a stranger's cancel fails with the
combined error leaving the state unchanged, and an unknown id fails. -/
theorem c6_witness :
    cancel_order sRevealH "order-1" "mock-trader" =
      (Except.ok true,
       { sRevealH with orders := some (mapInsert (sRevealH.orders.getD [])
          "order-1" { mkRevealedOrder "order-1" eoH with is_cancelled := true }) })
    ∧ cancel_order sRevealH "order-1" "stranger" =
        (Except.error "Order not found or cannot be cancelled", sRevealH)
    ∧ cancel_order sRevealH "order-9" "mock-trader" =
        (Except.error "Order not found or cannot be cancelled", sRevealH) := by
  refine ⟨?_, ?_, ?_⟩
  · have h := (c6_cancel_characterised sRevealH "order-1" "mock-trader").1
      (sRevealH.orders.getD []) (mkRevealedOrder "order-1" eoH) rfl rfl rfl rfl
    simpa using h
  · exact (c6_cancel_characterised sRevealH "order-1" "stranger").2.1
      (sRevealH.orders.getD []) (mkRevealedOrder "order-1" eoH) rfl rfl
      (by simp [mkRevealedOrder])
  · exact (c6_cancel_characterised sRevealH "order-9" "mock-trader").2.2.1
      (sRevealH.orders.getD []) rfl rfl

/-- Claim C6 counterexample: `"order-1"` in `sCancelH` is already Cancelled
(not in state Revealed), yet the original trader's second cancel succeeds
again instead of failing — cancellation is not restricted to Revealed
orders. -/
theorem c6_counterexample :
    (mapGet (sCancelH.orders.getD []) "order-1").map
        (fun o => (o.is_cancelled, o.is_executed, o.trader))
      = some (true, false, "mock-trader")
    ∧ (cancel_order sCancelH "order-1" "mock-trader").1 = Except.ok true := by
  refine ⟨rfl, rfl⟩

/-! ### Claim C9 -/

/-- Claim C9: a successful reveal inserts exactly the mock order: trader
`"mock-trader"`, tokens `"ETH"`/`"USDC"`, amounts `"1.0"`/`"2000"`, a buy —
independent of the ciphertext — with only the commitment, nonce and timestamp
taken from the submitted encrypted order (plus the fresh id); consequently two
encrypted orders agreeing on commitment, nonce and timestamp (whatever their
`encrypted_data`) yield identical orders up to the generated id. -/
theorem c9_reveal_builds_mock_order (s : DarkPoolState) (eo : EncryptedOrder)
    (m : List (String × Nat)) (hp : s.is_paused = false)
    (hm : s.commitments = some m) (hc : mapContains m eo.commitment = true) :
    reveal_order s eo =
      (Except.ok true,
       { s with
          orders := some (mapInsert (s.orders.getD [])
            ("order-" ++ toString s.next_id)
            (mkRevealedOrder ("order-" ++ toString s.next_id) eo))
          commitments := some (mapRemove m eo.commitment)
          next_id := s.next_id + 1 })
    ∧ (∀ oid : String, ∀ eo2 eo3 : EncryptedOrder,
        eo2.commitment = eo3.commitment → eo2.nonce = eo3.nonce →
        eo2.timestamp = eo3.timestamp →
        mkRevealedOrder oid eo2 = mkRevealedOrder oid eo3) := by
  refine ⟨by simp [reveal_order, hp, hm, hc], fun oid eo2 eo3 h1 h2 h3 => ?_⟩
  simp [mkRevealedOrder, h1, h2, h3]

/-- Instantiation of `c9_reveal_builds_mock_order` on the concrete run: the
reveal of the committed `"h"` inserts `mkRevealedOrder "order-1" eoH`. -/
theorem c9_witness :
    reveal_order sCommitH eoH =
      (Except.ok true,
       { sCommitH with
          orders := some (mapInsert (sCommitH.orders.getD [])
            ("order-" ++ toString sCommitH.next_id)
            (mkRevealedOrder ("order-" ++ toString sCommitH.next_id) eoH))
          commitments := some (mapRemove [("h", 1)] "h")
          next_id := sCommitH.next_id + 1 }) :=
  (c9_reveal_builds_mock_order sCommitH eoH [("h", 1)] rfl rfl rfl).1

/-! ### Claim C7 -/

/-- The buy comparator is transitive. -/
theorem buyLE_trans (a b c : Order) (h1 : buyLE a b = true)
    (h2 : buyLE b c = true) : buyLE a c = true := by
  simp only [buyLE, decide_eq_true_eq] at h1 h2 ⊢
  exact le_trans h2 h1

/-- The buy comparator is total. -/
theorem buyLE_total (a b : Order) : (buyLE a b || buyLE b a) = true := by
  simp only [buyLE, Bool.or_eq_true, decide_eq_true_eq]
  exact le_total (parseDecimal b.amount_out) (parseDecimal a.amount_out)

/-- The sell comparator is transitive. -/
theorem sellLE_trans (a b c : Order) (h1 : sellLE a b = true)
    (h2 : sellLE b c = true) : sellLE a c = true := by
  simp only [sellLE, decide_eq_true_eq] at h1 h2 ⊢
  exact le_trans h1 h2

/-- The sell comparator is total. -/
theorem sellLE_total (a b : Order) : (sellLE a b || sellLE b a) = true := by
  simp only [sellLE, Bool.or_eq_true, decide_eq_true_eq]
  exact le_total (parseDecimal a.amount_out) (parseDecimal b.amount_out)

/-- Claim C7 (amended): `get_order_book` ignores its trading-pair argument
(any two pairs give the same book); it returns exactly the orders that are
neither cancelled nor executed — the `is_revealed` flag is not consulted,
though every order the canister creates has it set — split into buys and
sells, with buys sorted descending and sells ascending by parsed `amount_out`
price; price ties keep the underlying map order and are not broken by
timestamp.  As a query it returns no state, so it mutates nothing. -/
theorem c7_order_book_characterised (s : DarkPoolState) (pair pair2 : String)
    (orders : List (String × Order)) (hm : s.orders = some orders) :
    get_order_book s pair = get_order_book s pair2
    ∧ ∃ b : OrderBook, get_order_book s pair = Except.ok b
        ∧ (∀ o : Order, o ∈ b.buys ↔ (o ∈ mapValues orders ∧
            o.is_cancelled = false ∧ o.is_executed = false ∧ o.is_buy = true))
        ∧ (∀ o : Order, o ∈ b.sells ↔ (o ∈ mapValues orders ∧
            o.is_cancelled = false ∧ o.is_executed = false ∧ o.is_buy = false))
        ∧ List.Pairwise
            (fun a b => parseDecimal b.amount_out ≤ parseDecimal a.amount_out)
            b.buys
        ∧ List.Pairwise
            (fun a b => parseDecimal a.amount_out ≤ parseDecimal b.amount_out)
            b.sells := by
  have hbook : get_order_book s pair = Except.ok
      { buys := sortBy buyLE (((mapValues orders).filter
          (fun o => !o.is_cancelled && !o.is_executed)).filter
            (fun o => o.is_buy)),
        sells := sortBy sellLE (((mapValues orders).filter
          (fun o => !o.is_cancelled && !o.is_executed)).filter
            (fun o => !o.is_buy)) } := by
    simp [get_order_book, hm]
  refine ⟨rfl, _, hbook, ?_, ?_, ?_, ?_⟩
  · intro o
    rw [mem_sortBy]
    simp only [List.mem_filter, Bool.and_eq_true, Bool.not_eq_true']
    tauto
  · intro o
    rw [mem_sortBy]
    simp only [List.mem_filter, Bool.and_eq_true, Bool.not_eq_true']
    tauto
  · exact (pairwise_sortBy buyLE buyLE_trans buyLE_total _).imp
      (fun h => by simpa [buyLE] using h)
  · exact (pairwise_sortBy sellLE sellLE_trans sellLE_total _).imp
      (fun h => by simpa [sellLE] using h)

/-- Instantiation of `c7_order_book_characterised` at `sBook`: the book is the
same for both built-in pairs. -/
theorem c7_witness :
    get_order_book sBook "ETH/USDC" = get_order_book sBook "QNT/USDT" :=
  (c7_order_book_characterised sBook "ETH/USDC" "QNT/USDT"
    (sBook.orders.getD []) rfl).1

/-- Claim C7 counterexample: in `sBook` the two live buy orders have the same
parsed price, so the claimed tie-break would put the timestamp-5 order first;
the code instead keeps map order and returns the timestamp-10 order first. -/
theorem c7_counterexample :
    (get_order_book sBook "ETH/USDC").toOption.map
        (fun b => b.buys.map (fun o => (o.amount_out, o.timestamp)))
      = some [("2000", 10), ("2000", 5)]
    ∧ (5 : Nat) < 10 := by
  refine ⟨by decide, by decide⟩
